import Mathlib

/-!
Verification development for the aiwatch analytics core: a shallow
embedding of the Go services (token capture, Redis TimeSeries service,
token analytics service) over an explicit model of the shared Redis
store, together with theorems settling the specification claims.

Modelling conventions:
* Redis hashes are an association list from key to a field map; sets,
  sorted sets, TTLs and time-series are per-key functions.
* Machine numbers: Go `int`/`int64` are modelled as `Int` (token counts
  never approach overflow); `float64` values are modelled as `ℚ`
  (exact where the claims use them).
* RFC3339-formatted timestamps are represented by their Unix time via
  the dedicated `RVal.time` constructor: Go's `Format`/`Parse` round-trip
  is the identity on times, `time.Parse` failure corresponds to a
  non-`time` value.
* Store failures (the per-command `error` results of the go-redis
  client) are modelled by a per-key failure oracle `Store.failing`
  (commands addressing a failing key return an error) plus a flag
  `Store.keysFail` for the keyspace-scanning `KEYS` command.
-/

namespace AIWatch

/-- A value stored in a Redis hash field (Redis stores strings; we keep
the typed content that the Go code serialises into the string). -/
inductive RVal where
  | int (n : Int)
  | rat (q : ℚ)
  | str (s : String)
  | time (t : Int)
  deriving DecidableEq, Repr

/-- The raw string a stored value denotes (stand-in for Go's `%v`
formatting; `time` values print as their RFC3339 text, abstracted here
by a tagged decimal form). -/
def RVal.toStr : RVal → String
  | .int n => toString n
  | .rat q => toString q
  | .str s => s
  | .time t => "@" ++ toString t

/-- `HGET k f` followed by `.Int()` with the error discarded: parse an
integer, yielding `0` when the field is absent or does not parse
(Go's `strconv.ParseInt` fails on float or timestamp text). -/
def asInt : Option RVal → Int
  | some (.int n) => n
  | _ => 0

/-- `.Float64()` with the error discarded: `ParseFloat` succeeds on both
integer and float text, yielding `0` otherwise. -/
def asRat : Option RVal → ℚ
  | some (.int n) => (n : ℚ)
  | some (.rat q) => q
  | _ => 0

/-- One Redis TimeSeries key: retention, static labels, and the samples
in ascending timestamp order. -/
structure Series where
  retention : Int
  labels : List (String × String)
  samples : List (Int × ℚ)
  deriving DecidableEq, Repr

/-- The shared Redis store visible to the three services.
`hashes` is an association list so that the `KEYS` scan has a definite
encounter order; every other key family is a per-key function. -/
structure Store where
  hashes : List (String × (String → Option RVal))
  sets : String → List String
  zsets : String → List (ℚ × String)
  ttl : String → Option Int
  tseries : String → Option Series
  failing : String → Bool
  keysFail : Bool

/-- The store with no data and no failing commands. -/
def emptyStore : Store :=
  { hashes := []
    sets := fun _ => []
    zsets := fun _ => []
    ttl := fun _ => none
    tseries := fun _ => none
    failing := fun _ => false
    keysFail := false }

/-- Field lookup in the hash association list (`HGET`). -/
def hgetL (l : List (String × (String → Option RVal))) (k f : String) :
    Option RVal :=
  match l with
  | [] => none
  | (k₀, g) :: t => if k = k₀ then g f else hgetL t k f

/-- Field update in the hash association list (`HSET`); creates the hash
when the key is absent. -/
def hsetL (l : List (String × (String → Option RVal))) (k f : String)
    (v : RVal) : List (String × (String → Option RVal)) :=
  match l with
  | [] => [(k, fun f' => if f' = f then some v else none)]
  | (k₀, g) :: t =>
    if k = k₀ then (k₀, fun f' => if f' = f then some v else g f') :: t
    else (k₀, g) :: hsetL t k f v

def hget (s : Store) (k f : String) : Option RVal := hgetL s.hashes k f

def hset (s : Store) (k f : String) (v : RVal) : Store :=
  { s with hashes := hsetL s.hashes k f v }

/-- `HMSET k kvs`: set the listed fields of one hash. -/
def hmset (s : Store) (k : String) : List (String × RVal) → Store
  | [] => s
  | (f, v) :: t => hmset (hset s k f v) k t

/-- `SADD`: add a member to a set (no duplicates). -/
def sadd (s : Store) (k m : String) : Store :=
  { s with sets := fun k' =>
      if k' = k then
        (if m ∈ s.sets k then s.sets k else s.sets k ++ [m])
      else s.sets k' }

/-- `EXPIRE k d`: set the key's TTL to `d` seconds. -/
def expire (s : Store) (k : String) (d : Int) : Store :=
  { s with ttl := fun k' => if k' = k then some d else s.ttl k' }

/-- `ZADD`: insert or update a member with its score. -/
def zadd (s : Store) (k : String) (score : ℚ) (m : String) : Store :=
  { s with zsets := fun k' =>
      if k' = k then
        (s.zsets k).filter (fun p => p.2 ≠ m) ++ [(score, m)]
      else s.zsets k' }

/-- The message of the underlying store error (go-redis client error). -/
def storeErr : String := "redis: command failed"

/-- `HMSET` with the error checked: fails on a failing key. -/
def hmsetE (s : Store) (k : String) (kvs : List (String × RVal)) :
    Except String Store :=
  if s.failing k then .error storeErr else .ok (hmset s k kvs)

/-- `HSET` with the error discarded: a failing key leaves the store
unchanged. -/
def hsetI (s : Store) (k f : String) (v : RVal) : Store :=
  if s.failing k then s else hset s k f v

/-- `SADD` with the error discarded. -/
def saddI (s : Store) (k m : String) : Store :=
  if s.failing k then s else sadd s k m

/-- `EXPIRE` with the error discarded. -/
def expireI (s : Store) (k : String) (d : Int) : Store :=
  if s.failing k then s else expire s k d

/-- `ZADD` with the error checked. -/
def zaddE (s : Store) (k : String) (score : ℚ) (m : String) :
    Except String Store :=
  if s.failing k then .error storeErr else .ok (zadd s k score m)

/-- `HGET k f` then `.Int()` with the error discarded (the Go code's
`currentX, _ := tcs.client.HGet(...).Int()`). -/
def readInt (s : Store) (k f : String) : Int :=
  if s.failing k then 0 else asInt (hget s k f)

/-- `HGET k f` then `.Float64()` with the error discarded. -/
def readRat (s : Store) (k f : String) : ℚ :=
  if s.failing k then 0 else asRat (hget s k f)

/-! ### Key layout (`fmt.Sprintf` patterns of the Go services) -/

def requestKey (rid : String) : String := "request:" ++ (rid ++ ":tokens")

def sessionKey (sid : String) : String := "session:" ++ (sid ++ ":tokens")

def userKey (uid : String) : String := "user:" ++ (uid ++ ":tokens")

def modelKey (m : String) : String := "model:" ++ (m ++ ":usage")

/-- Stand-in for Go's `timestamp.Format("2006-01-02-15")`: like that
format, it identifies the hour containing the Unix time `t`. -/
def fmtHour (t : Int) : String := toString (t / 3600)

def hourlyKey (uid : String) (t : Int) : String :=
  "user:" ++ (uid ++ (":tokens:hourly:" ++ fmtHour t))

def activeSessionsKey : String := "sessions:active"

def activeUsersKey (w : String) : String := "users:active:" ++ w

/-- The Go `for`-loop body data of `updateRealTimeActivity`'s
`timeWindows` map (window name, duration in seconds). -/
def timeWindows : List (String × Int) :=
  [("5m", 300), ("15m", 900), ("1h", 3600), ("24h", 86400)]

/-! ### Token capture service (`TokenCaptureService`) -/

/-- The `TokenMetrics` record handed to `CaptureTokenMetrics`. -/
structure TokenMetrics where
  RequestID : String
  SessionID : String
  UserID : String
  Timestamp : Int
  InputTokens : Int
  OutputTokens : Int
  ResponseTimeMs : ℚ
  FirstTokenLatencyMs : ℚ
  ModelUsed : String
  PromptLength : Int
  ResponseLength : Int
  Status : String
  deriving DecidableEq, Repr

/-- The per-session test of `GetOrCreateSession`'s scan loop: the
session hash is readable, stores this user's id, and its
`last_activity` parses to a time within 30 minutes of `now`; every
failed read or check is a `continue` (i.e. `false` here). -/
def sessionActiveFor (s : Store) (userID : String) (now : Int)
    (sid : String) : Bool :=
  let k := sessionKey sid
  if s.failing k then false
  else
    match hget s k "user_id" with
    | none => false
    | some v =>
      if v.toStr = userID then
        match hget s k "last_activity" with
        | some (.time t) => decide (now - t < 30 * 60)
        | _ => false
      else false

/-- The scan loop itself: the first member of `sessions:active`
passing the test. -/
def findSession (s : Store) (userID : String) (now : Int)
    (actives : List String) : Option String :=
  actives.find? (sessionActiveFor s userID now)

/-- The field map written for a freshly created session. -/
def newSessionData (userID modelUsed : String) (now : Int) :
    List (String × RVal) :=
  [("user_id", .str userID),
   ("start_time", .time now),
   ("last_activity", .time now),
   ("total_input_tokens", .int 0),
   ("total_output_tokens", .int 0),
   ("request_count", .int 0),
   ("model_used", .str modelUsed),
   ("avg_response_time", .rat 0),
   ("status", .str "active")]

/-- `GetOrCreateSession`: reuse the first active session of the user
whose last activity is within 30 minutes (refreshing its
`last_activity`), otherwise create a fresh session with zero counters.
`freshID` stands for the value of `GenerateSessionID()`. -/
def getOrCreateSession (s : Store) (userID modelUsed : String)
    (now : Int) (freshID : String) : Except String String × Store :=
  if s.failing activeSessionsKey then (.error storeErr, s)
  else
    match findSession s userID now (s.sets activeSessionsKey) with
    | some sid =>
      (.ok sid, hsetI s (sessionKey sid) "last_activity" (.time now))
    | none =>
      match hmsetE s (sessionKey freshID)
          (newSessionData userID modelUsed now) with
      | .error e => (.error e, s)
      | .ok s1 =>
        let s2 := saddI s1 activeSessionsKey freshID
        let s3 := expireI s2 (sessionKey freshID) (30 * 24 * 3600)
        (.ok freshID, s3)

/-- Step 1 of `CaptureTokenMetrics`: the request-level hash fields. -/
def requestData (m : TokenMetrics) : List (String × RVal) :=
  [("session_id", .str m.SessionID),
   ("user_id", .str m.UserID),
   ("timestamp", .int m.Timestamp),
   ("input_tokens", .int m.InputTokens),
   ("output_tokens", .int m.OutputTokens),
   ("response_time_ms", .rat m.ResponseTimeMs),
   ("first_token_latency_ms", .rat m.FirstTokenLatencyMs),
   ("model_used", .str m.ModelUsed),
   ("prompt_length", .int m.PromptLength),
   ("response_length", .int m.ResponseLength),
   ("status", .str m.Status)]

/-- `updateSessionMetrics`: read the running session totals (errors
discarded), add the new counts, and write back. -/
def updateSessionMetrics (m : TokenMetrics) (s : Store) :
    Except String Store :=
  let k := sessionKey m.SessionID
  let currentInputTokens := readInt s k "total_input_tokens"
  let currentOutputTokens := readInt s k "total_output_tokens"
  let currentRequestCount := readInt s k "request_count"
  let currentAvgResponseTime := readRat s k "avg_response_time"
  let newRequestCount := currentRequestCount + 1
  let newAvgResponseTime :=
    ((currentAvgResponseTime * (currentRequestCount : ℚ)) +
      m.ResponseTimeMs) / (newRequestCount : ℚ)
  hmsetE s k
    [("total_input_tokens", .int (currentInputTokens + m.InputTokens)),
     ("total_output_tokens", .int (currentOutputTokens + m.OutputTokens)),
     ("request_count", .int newRequestCount),
     ("avg_response_time", .rat newAvgResponseTime),
     ("last_activity", .time m.Timestamp)]

/-- `updateUserMetrics`: read the lifetime user totals (errors
discarded), add the new counts, recompute the average tokens per
request, keep `first_seen` when present, and write back. -/
def updateUserMetrics (m : TokenMetrics) (s : Store) :
    Except String Store :=
  let k := userKey m.UserID
  let currentInputTokens := readInt s k "total_input_tokens"
  let currentOutputTokens := readInt s k "total_output_tokens"
  let currentRequests := readInt s k "total_requests"
  let newTotalInputTokens := currentInputTokens + m.InputTokens
  let newTotalOutputTokens := currentOutputTokens + m.OutputTokens
  let newTotalRequests := currentRequests + 1
  let newAvgTokensPerRequest : ℚ :=
    ((newTotalInputTokens + newTotalOutputTokens : Int) : ℚ) /
      ((newTotalRequests : Int) : ℚ)
  let firstSeen : RVal :=
    if s.failing k then .str ""
    else
      match hget s k "first_seen" with
      | some v => v
      | none => .time m.Timestamp
  hmsetE s k
    [("total_input_tokens", .int newTotalInputTokens),
     ("total_output_tokens", .int newTotalOutputTokens),
     ("total_requests", .int newTotalRequests),
     ("avg_tokens_per_request", .rat newAvgTokensPerRequest),
     ("first_seen", firstSeen),
     ("last_seen", .time m.Timestamp)]

/-- The member string `fmt.Sprintf("input:%d:output:%d", ...)`. -/
def hourlyMember (m : TokenMetrics) : String :=
  "input:" ++ toString m.InputTokens ++ ":output:" ++
    toString m.OutputTokens

/-- `updateTimeSeriesData`: append a per-minute marker into the user's
hourly sorted-set bucket (score = minute of hour) and refresh its TTL
(90 days, error discarded). -/
def updateTimeSeriesData (m : TokenMetrics) (now : Int) (s : Store) :
    Except String Store :=
  let k := hourlyKey m.UserID now
  let minute : Int := (now / 60) % 60
  match zaddE s k (minute : ℚ) (hourlyMember m) with
  | .error e => .error e
  | .ok s1 => .ok (expireI s1 k (90 * 24 * 3600))

/-- `updateModelUsage`: read the per-model totals (errors discarded),
add the new counts, recompute the average response time, and write
back. -/
def updateModelUsage (m : TokenMetrics) (s : Store) :
    Except String Store :=
  let k := modelKey m.ModelUsed
  let currentRequests := readInt s k "total_requests"
  let currentInputTokens := readInt s k "total_input_tokens"
  let currentOutputTokens := readInt s k "total_output_tokens"
  let currentAvgResponseTime := readRat s k "avg_response_time"
  let newRequests := currentRequests + 1
  let newAvgResponseTime :=
    ((currentAvgResponseTime * (currentRequests : ℚ)) +
      m.ResponseTimeMs) / (newRequests : ℚ)
  hmsetE s k
    [("total_requests", .int newRequests),
     ("total_input_tokens", .int (currentInputTokens + m.InputTokens)),
     ("total_output_tokens", .int (currentOutputTokens + m.OutputTokens)),
     ("avg_response_time", .rat newAvgResponseTime),
     ("last_used", .time m.Timestamp)]

/-- `updateRealTimeActivity`: add the session to `sessions:active` and
re-add the user to each activity-window set, refreshing its TTL; every
command's error is discarded and the function always returns `nil`. -/
def updateRealTimeActivity (userID sessionID : String) (s : Store) :
    Except String Store :=
  let s1 := saddI s activeSessionsKey sessionID
  let s2 := timeWindows.foldl
    (fun acc wd =>
      expireI (saddI acc (activeUsersKey wd.1) userID)
        (activeUsersKey wd.1) wd.2) s1
  .ok s2

/-- `CaptureTokenMetrics`: stamp the record with the current time and
fan the update out to the six sub-updates, returning at the first
failed stage with a stage-naming error; earlier stages' writes stay in
place. Returns the Go `error` (`none` = `nil`) and the final store. -/
def captureTokenMetrics (m₀ : TokenMetrics) (now : Int) (s : Store) :
    Option String × Store :=
  let m := { m₀ with Timestamp := now }
  match hmsetE s (requestKey m.RequestID) (requestData m) with
  | .error e => (some ("failed to store request metrics: " ++ e), s)
  | .ok sa =>
    let s1 := expireI sa (requestKey m.RequestID) (7 * 24 * 3600)
    match updateSessionMetrics m s1 with
    | .error e => (some ("failed to update session metrics: " ++ e), s1)
    | .ok s2 =>
      match updateUserMetrics m s2 with
      | .error e => (some ("failed to update user metrics: " ++ e), s2)
      | .ok s3 =>
        match updateTimeSeriesData m now s3 with
        | .error e =>
          (some ("failed to update time-series data: " ++ e), s3)
        | .ok s4 =>
          match updateModelUsage m s4 with
          | .error e => (some ("failed to update model usage: " ++ e), s4)
          | .ok s5 =>
            match updateRealTimeActivity m.UserID m.SessionID s5 with
            | .error e =>
              (some ("failed to update real-time activity: " ++ e), s5)
            | .ok s6 => (none, s6)

/-- N sequential captures (each with its own current time). -/
def runCaptures (ms : List (TokenMetrics × Int)) (s : Store) : Store :=
  ms.foldl (fun acc p => (captureTokenMetrics p.1 p.2 acc).2) s

/-! ### Redis TimeSeries service (`RedisTimeSeriesService`) -/

structure TimeSeriesQuery where
  Key : String
  StartTime : Int
  EndTime : Int
  Aggregation : String
  BucketDuration : Int
  deriving DecidableEq, Repr

structure DataPoint where
  Timestamp : Int
  Value : ℚ
  deriving DecidableEq, Repr

structure TimeSeriesResponse where
  Key : String
  Data : List DataPoint
  Labels : List (String × String)
  deriving DecidableEq, Repr

/-- The error text Redis TimeSeries returns for `TS.CREATE` on an
existing key; the literal the Go code compares against. -/
def tsdbExistsErr : String := "TSDB: key already exists"

/-- `TS.CREATE key RETENTION r LABELS ...`: fails when the key already
exists, leaving the stored series untouched. -/
def tsCreate (s : Store) (key : String) (retention : Int)
    (labels : List (String × String)) : Option String × Store :=
  if s.failing key then (some storeErr, s)
  else
    match s.tseries key with
    | some _ => (some tsdbExistsErr, s)
    | none =>
      (none,
        { s with tseries := fun k' =>
            if k' = key then some ⟨retention, labels, []⟩
            else s.tseries k' })

/-- The static series catalog of `initializeTimeSeries`
(key, retention in milliseconds, labels), in source order. -/
def seriesCatalog : List (String × Int × List (String × String)) :=
  [("metrics:tokens:input_rate", 86400000,
     [("metric_type", "token_rate"), ("direction", "input")]),
   ("metrics:tokens:output_rate", 86400000,
     [("metric_type", "token_rate"), ("direction", "output")]),
   ("metrics:users:active_5m", 86400000,
     [("metric_type", "user_activity"), ("window", "5m")]),
   ("metrics:users:active_1h", 86400000,
     [("metric_type", "user_activity"), ("window", "1h")]),
   ("metrics:response_time:p95", 86400000,
     [("metric_type", "response_time"), ("percentile", "95")]),
   ("metrics:response_time:p99", 86400000,
     [("metric_type", "response_time"), ("percentile", "99")]),
   ("metrics:error_rate", 86400000,
     [("metric_type", "error_rate")]),
   ("metrics:memory:redis_used", 604800000,
     [("metric_type", "memory"), ("component", "redis")]),
   ("metrics:cpu:usage", 604800000,
     [("metric_type", "system"), ("component", "cpu")])]

/-- One iteration of `initializeTimeSeries`'s loop: create the series,
swallow an "already exists" error, log any other error as a warning. -/
def initStep (acc : Store × List String)
    (entry : String × Int × List (String × String)) :
    Store × List String :=
  match tsCreate acc.1 entry.1 entry.2.1 entry.2.2 with
  | (none, s') => (s', acc.2)
  | (some e, s') =>
    if e = tsdbExistsErr then (s', acc.2)
    else (s', acc.2 ++
      ["Warning: Failed to create time-series " ++ entry.1 ++
        ": " ++ e])

/-- `initializeTimeSeries`: create every catalog series; an
"already exists" error is swallowed, any other error is only logged as
a warning. Returns the final store and the logged warnings. -/
def initializeTimeSeries (s : Store) : Store × List String :=
  seriesCatalog.foldl initStep (s, [])

/-- Insert a sample keeping the list ascending by timestamp. -/
def insertSample (x : Int × ℚ) : List (Int × ℚ) → List (Int × ℚ)
  | [] => [x]
  | y :: ys => if x.1 < y.1 then x :: y :: ys else y :: insertSample x ys

/-- `AddDataPoint(key, timestamp, value)` via `TS.ADD`: a zero
timestamp is replaced by the current time; the series is auto-created
when absent; a sample already present at the same timestamp is
rejected (Redis's default `BLOCK` duplicate policy). -/
def addDataPoint (s : Store) (now : Int) (key : String)
    (timestamp : Int) (value : ℚ) : Option String × Store :=
  let ts := if timestamp = 0 then now else timestamp
  if s.failing key then (some storeErr, s)
  else
    match s.tseries key with
    | none =>
      (none,
        { s with tseries := fun k' =>
            if k' = key then some ⟨0, [], [(ts, value)]⟩
            else s.tseries k' })
    | some ser =>
      if ser.samples.any (fun p => p.1 = ts) then
        (some "TSDB: Error at upsert, update is not supported when DUPLICATE_POLICY is set to BLOCK mode", s)
      else
        (none,
          { s with tseries := fun k' =>
              if k' = key then
                some { ser with samples := insertSample (ts, value) ser.samples }
              else s.tseries k' })

/-- Reduce the values of one aggregation bucket (`avg`/`sum`/`min`/
`max`/`count`; the store-level reduction of Redis TimeSeries). -/
def reduceBucket (agg : String) (vs : List ℚ) : ℚ :=
  match agg with
  | "avg" => vs.sum / (vs.length : ℚ)
  | "sum" => vs.sum
  | "min" => vs.foldl min (vs.headD 0)
  | "max" => vs.foldl max (vs.headD 0)
  | "count" => (vs.length : ℚ)
  | _ => 0

/-- Bucket ascending samples by `bd`-sized time buckets and reduce each
bucket (bucket timestamp = start of bucket). -/
def bucketize (agg : String) (bd : Int) (samples : List (Int × ℚ)) :
    List (Int × ℚ) :=
  let buckets := (samples.map (fun p => (p.1 / bd) * bd)).dedup
  buckets.map (fun b =>
    (b, reduceBucket agg
      ((samples.filter (fun p => (p.1 / bd) * bd = b)).map (·.2))))

/-- `QueryRange`: `TS.RANGE key start end [AGGREGATION agg bd]`, parsed
into a response; the bounds are inclusive. The `Labels` field of the
response is never filled in by the Go code. -/
def queryRange (s : Store) (q : TimeSeriesQuery) :
    Except String TimeSeriesResponse :=
  if s.failing q.Key then .error storeErr
  else
    match s.tseries q.Key with
    | none => .error "TSDB: the key does not exist"
    | some ser =>
      let raw := ser.samples.filter
        (fun p => q.StartTime ≤ p.1 ∧ p.1 ≤ q.EndTime)
      let data :=
        if q.Aggregation ≠ "" ∧ q.BucketDuration > 0 then
          bucketize q.Aggregation q.BucketDuration raw
        else raw
      .ok ⟨q.Key, data.map (fun p => ⟨p.1, p.2⟩), []⟩

/-- Insert into the Go `map[string]*TimeSeriesResponse` (assignment
replaces the entry when the key is present). -/
def mapInsert (m : List (String × TimeSeriesResponse)) (k : String)
    (v : TimeSeriesResponse) : List (String × TimeSeriesResponse) :=
  match m with
  | [] => [(k, v)]
  | (k0, v0) :: t =>
    if k0 = k then (k, v) :: t else (k0, v0) :: mapInsert t k v

def lookupResp (m : List (String × TimeSeriesResponse)) (k : String) :
    Option TimeSeriesResponse :=
  (m.find? (fun p => p.1 = k)).map (·.2)

/-- The serial loop of `QueryMultiRange`. -/
def multiRangeLoop (s : Store) (acc : List (String × TimeSeriesResponse)) :
    List TimeSeriesQuery →
      Except String (List (String × TimeSeriesResponse))
  | [] => .ok acc
  | q :: rest =>
    match queryRange s q with
    | .error e => .error ("failed to query " ++ q.Key ++ ": " ++ e)
    | .ok r => multiRangeLoop s (mapInsert acc q.Key r) rest

/-- `QueryMultiRange`: execute each query serially; the first failure
aborts the batch with an error naming the query's key and a `nil`
result map. -/
def queryMultiRange (s : Store) (queries : List TimeSeriesQuery) :
    Except String (List (String × TimeSeriesResponse)) :=
  multiRangeLoop s [] queries

/-- `GetLatestValue` via `TS.GET`: the most recent sample; a missing
key is a store error and an empty series yields the Go parse error. -/
def getLatestValue (s : Store) (key : String) :
    Except String DataPoint :=
  if s.failing key then .error storeErr
  else
    match s.tseries key with
    | none => .error "TSDB: the key does not exist"
    | some ser =>
      match ser.samples.getLast? with
      | some p => .ok ⟨p.1, p.2⟩
      | none => .error "invalid response format"

/-! ### Token analytics service (`TokenAnalyticsService`)

The read commands are modelled in state-passing style
(`Store → α × Store`) so that the freedom from mutation of
`GetAnalytics` is a theorem about the composition rather than a
modelling assumption. -/

structure UserStats where
  UserID : String
  TotalInputTokens : Int
  TotalOutputTokens : Int
  TotalSessions : Int
  AvgTokensPerRequest : ℚ
  LastSeen : String
  deriving DecidableEq, Repr

structure ModelStats where
  TotalRequests : Int
  TotalInputTokens : Int
  TotalOutputTokens : Int
  AvgResponseTime : ℚ
  AvgTokensPerSecond : ℚ
  deriving DecidableEq, Repr

structure AnalyticsResponse where
  ActiveUsers5m : Int
  ActiveUsers1h : Int
  ActiveSessions : Int
  TokenRates : List (String × ℚ)
  TopUsers : List UserStats
  ModelUsage : List (String × ModelStats)
  ResponseTimeP95 : ℚ
  ResponseTimeP99 : ℚ
  ErrorRate : ℚ
  Timestamp : Int
  deriving DecidableEq, Repr

/-- `SCARD k` followed by `.Result()` with the error discarded (the
count stays at the zero value on failure). -/
def sCardC (k : String) (s : Store) : Int × Store :=
  ((if s.failing k then 0 else ((s.sets k).length : Int)), s)

/-- Glob match for the patterns `user:*:tokens` / `model:*:usage`:
the key has the literal prefix and, after it, the literal suffix. -/
def globMatch (pre suf k : String) : Bool :=
  pre.data.isPrefixOf k.data &&
    suf.data.isSuffixOf (k.data.drop pre.data.length)

/-- `KEYS pre*suf`: the matching hash keys in encounter order. -/
def keysC (pre suf : String) (s : Store) :
    Except String (List String) × Store :=
  ((if s.keysFail then .error storeErr
    else .ok ((s.hashes.map (·.1)).filter (globMatch pre suf))), s)

/-- `HGETALL k`: the field map of a hash (empty when the key is
absent); fails only on a failing key. -/
def hgetAllC (k : String) (s : Store) :
    Except String (String → Option RVal) × Store :=
  ((if s.failing k then .error storeErr
    else .ok (fun f => hget s k f)), s)

/-- `strings.Split(key, ":")[1]`: the identifier between the first and
second colons of a scanned key (every scanned key contains a colon). -/
def keyPart (key : String) : String :=
  ⟨(((key.data.dropWhile (fun c => c ≠ ':')).drop 1).takeWhile
    (fun c => c ≠ ':'))⟩

/-- One `UserStats` entry built from a scanned user hash
(`strconv` parse failures yield zero values; `TotalSessions` is the
source's stated approximation by `total_requests`). -/
def mkUserStats (key : String) (data : String → Option RVal) :
    UserStats :=
  { UserID := keyPart key
    TotalInputTokens := asInt (data "total_input_tokens")
    TotalOutputTokens := asInt (data "total_output_tokens")
    TotalSessions := asInt (data "total_requests")
    AvgTokensPerRequest := asRat (data "avg_tokens_per_request")
    LastSeen := match data "last_seen" with
      | some v => v.toStr
      | none => "" }

/-- The accumulation loop of `getTopUsers` (a failing `HGETALL` is a
`continue`). -/
def topUsersLoop (s : Store) : List String → List UserStats
  | [] => []
  | key :: rest =>
    match (hgetAllC key s).1 with
    | .error _ => topUsersLoop s rest
    | .ok data => mkUserStats key data :: topUsersLoop s rest

/-- `getTopUsers(limit)`: scan `user:*:tokens`, build the stats in
encounter order, and truncate to `limit` — no ranking is applied. -/
def getTopUsersC (limit : Nat) (s : Store) :
    Except String (List UserStats) × Store :=
  match keysC "user:" ":tokens" s with
  | (.error e, s') => (.error e, s')
  | (.ok keys, s') => (.ok ((topUsersLoop s' keys).take limit), s')

def mkModelStats (data : String → Option RVal) : ModelStats :=
  { TotalRequests := asInt (data "total_requests")
    TotalInputTokens := asInt (data "total_input_tokens")
    TotalOutputTokens := asInt (data "total_output_tokens")
    AvgResponseTime := asRat (data "avg_response_time")
    AvgTokensPerSecond := 0 }

/-- Insert into the Go `map[string]ModelStats` (assignment replaces
the entry when the key is present). -/
def modelMapInsert (m : List (String × ModelStats)) (k : String)
    (v : ModelStats) : List (String × ModelStats) :=
  match m with
  | [] => [(k, v)]
  | (k0, v0) :: t =>
    if k0 = k then (k, v) :: t else (k0, v0) :: modelMapInsert t k v

def modelUsageLoop (s : Store) (acc : List (String × ModelStats)) :
    List String → List (String × ModelStats)
  | [] => acc
  | key :: rest =>
    match (hgetAllC key s).1 with
    | .error _ => modelUsageLoop s acc rest
    | .ok data =>
      modelUsageLoop s (modelMapInsert acc (keyPart key)
        (mkModelStats data)) rest

/-- `getModelUsage`: scan `model:*:usage` into a per-model map. -/
def getModelUsageC (s : Store) :
    Except String (List (String × ModelStats)) × Store :=
  match keysC "model:" ":usage" s with
  | (.error e, s') => (.error e, s')
  | (.ok keys, s') => (.ok (modelUsageLoop s' [] keys), s')

/-- `GetAnalytics`: build the composite snapshot. Every sub-read's
error is discarded (the corresponding field keeps its zero/empty
value) and the function itself always returns a `nil` error. -/
def getAnalyticsC (now : Int) (s : Store) :
    Except String AnalyticsResponse × Store :=
  let r0 := sCardC (activeUsersKey "5m") s
  let r1 := sCardC (activeUsersKey "1h") r0.2
  let r2 := sCardC activeSessionsKey r1.2
  let tokenRates : List (String × ℚ) :=
    [("input_per_minute", 0), ("output_per_minute", 0)]
  let r3 := getTopUsersC 10 r2.2
  let topUsers := match r3.1 with
    | .ok l => l
    | .error _ => []
  let r4 := getModelUsageC r3.2
  let modelUsage := match r4.1 with
    | .ok l => l
    | .error _ => []
  (.ok
    { ActiveUsers5m := r0.1
      ActiveUsers1h := r1.1
      ActiveSessions := r2.1
      TokenRates := tokenRates
      TopUsers := topUsers
      ModelUsage := modelUsage
      ResponseTimeP95 := 0
      ResponseTimeP99 := 0
      ErrorRate := 0
      Timestamp := now }, r4.2)

/-- The HTTP status the `/analytics` handler answers with: 500 exactly
when `GetAnalytics` returns a non-nil error, 200 otherwise. -/
def analyticsStatus (s : Store) (now : Int) : Nat :=
  match (getAnalyticsC now s).1 with
  | .ok _ => 200
  | .error _ => 500

/-- A store holding two populated time-series for the C5/C6/C7
witnesses. -/
def tsDemoStore : Store :=
  { emptyStore with tseries := fun k =>
      if k = "metrics:tokens:input_rate" then
        (some ⟨86400000, [("metric_type", "token_rate")], [(100, 3), (200, 4)]⟩)
      else if k = "metrics:tokens:output_rate" then
        (some ⟨86400000, [("metric_type", "token_rate")], [(150, 7)]⟩)
      else none }

def tsQuery (k : String) : TimeSeriesQuery :=
  { Key := k, StartTime := 0, EndTime := 1000, Aggregation := "",
    BucketDuration := 0 }

/-- The samples currently stored under a series key (empty when the
series is absent). -/
def seriesSamples (s : Store) (key : String) : List (Int × ℚ) :=
  match s.tseries key with
  | some ser => ser.samples
  | none => []

/-- A store on which every catalog series already exists (with data),
for the C7 witness. -/
def c7DemoStore : Store :=
  { emptyStore with tseries := fun k =>
      if seriesCatalog.any (fun e => e.1 = k) then
        (some ⟨1, [("old", "labels")], [(5, 1)]⟩)
      else none }

/-! ### Demonstration data used by the witnesses -/

/-- Scenario A of the spec: three captures for `u1`, inputs
`[10, 20, 30]`, outputs `[5, 5, 5]`. -/
def demoMetric (i o : Int) : TokenMetrics :=
  { RequestID := "r1", SessionID := "s1", UserID := "u1",
    Timestamp := 0, InputTokens := i, OutputTokens := o,
    ResponseTimeMs := 0, FirstTokenLatencyMs := 0,
    ModelUsed := "llama", PromptLength := 0, ResponseLength := 0,
    Status := "success" }

def c1DemoMs : List (TokenMetrics × Int) :=
  [(demoMetric 10 5, 100), (demoMetric 20 5, 200), (demoMetric 30 5, 300)]

/-- A store holding one active session `sessA` of `u1` created at
time 1000. -/
def c2DemoStore : Store :=
  (getOrCreateSession emptyStore "u1" "llama" 1000 "sessA").2

/-- The user aggregate written by one `updateUserMetrics` on the empty
store for Scenario A's first record. -/
def c4UserStore : Store :=
  match updateUserMetrics (demoMetric 10 5) emptyStore with
  | .ok s' => s'
  | .error _ => emptyStore

/-- The model aggregate written by one `updateModelUsage` on the empty
store. -/
def c4ModelStore : Store :=
  match updateModelUsage (demoMetric 10 5) emptyStore with
  | .ok s' => s'
  | .error _ => emptyStore

/-- The user aggregate written when the capture record carries a
negative input-token count. -/
def c4NegStore : Store :=
  match updateUserMetrics (demoMetric (-1) 0) emptyStore with
  | .ok s' => s'
  | .error _ => emptyStore

/-! ### Basic store lemmas -/

theorem hgetL_hsetL (l : List (String × (String → Option RVal)))
    (k f : String) (v : RVal) (k' f' : String) :
    hgetL (hsetL l k f v) k' f' =
      if k' = k ∧ f' = f then some v else hgetL l k' f' := by
  induction l with
  | nil =>
    simp only [hsetL, hgetL]
    by_cases h1 : k' = k
    · subst h1
      by_cases h2 : f' = f <;> simp [h2]
    · simp [h1]
  | cons hd t ih =>
    obtain ⟨k₀, g⟩ := hd
    simp only [hsetL]
    by_cases h0 : k = k₀
    · subst h0
      simp only [if_pos rfl, hgetL]
      by_cases h1 : k' = k
      · subst h1
        by_cases h2 : f' = f <;> simp [h2]
      · simp [h1]
    · rw [if_neg h0]
      simp only [hgetL]
      by_cases h1 : k' = k₀
      · subst h1
        have : ¬(k' = k ∧ f' = f) := fun h => h0 (h.1.symm)
        simp [this]
      · simp [h1, ih]

@[simp] theorem hget_hset (s : Store) (k f : String) (v : RVal)
    (k' f' : String) :
    hget (hset s k f v) k' f' =
      if k' = k ∧ f' = f then some v else hget s k' f' :=
  hgetL_hsetL s.hashes k f v k' f'

@[simp] theorem hget_sadd (s : Store) (k m k' f' : String) :
    hget (sadd s k m) k' f' = hget s k' f' := rfl

@[simp] theorem hget_expire (s : Store) (k : String) (d : Int)
    (k' f' : String) : hget (expire s k d) k' f' = hget s k' f' := rfl

@[simp] theorem hget_zadd (s : Store) (k : String) (sc : ℚ)
    (m k' f' : String) : hget (zadd s k sc m) k' f' = hget s k' f' := rfl

@[simp] theorem failing_hset (s : Store) (k f : String) (v : RVal) :
    (hset s k f v).failing = s.failing := rfl

@[simp] theorem failing_sadd (s : Store) (k m : String) :
    (sadd s k m).failing = s.failing := rfl

@[simp] theorem failing_expire (s : Store) (k : String) (d : Int) :
    (expire s k d).failing = s.failing := rfl

@[simp] theorem failing_zadd (s : Store) (k : String) (sc : ℚ)
    (m : String) : (zadd s k sc m).failing = s.failing := rfl

theorem failing_hmset (s : Store) (k : String)
    (kvs : List (String × RVal)) : (hmset s k kvs).failing = s.failing := by
  induction kvs generalizing s with
  | nil => rfl
  | cons hd t ih => simp [hmset, ih]

@[simp] theorem keysFail_hset (s : Store) (k f : String) (v : RVal) :
    (hset s k f v).keysFail = s.keysFail := rfl

theorem hget_hmset_other (s : Store) (k : String)
    (kvs : List (String × RVal)) (k' f' : String) (h : k' ≠ k) :
    hget (hmset s k kvs) k' f' = hget s k' f' := by
  induction kvs generalizing s with
  | nil => rfl
  | cons hd t ih => simp [hmset, ih, h]

@[simp] theorem sets_hset (s : Store) (k f : String) (v : RVal) :
    (hset s k f v).sets = s.sets := rfl

theorem sets_hmset (s : Store) (k : String) (kvs : List (String × RVal)) :
    (hmset s k kvs).sets = s.sets := by
  induction kvs generalizing s with
  | nil => rfl
  | cons hd t ih => simp [hmset, ih]

@[simp] theorem sets_expire (s : Store) (k : String) (d : Int) :
    (expire s k d).sets = s.sets := rfl

@[simp] theorem sets_zadd (s : Store) (k : String) (sc : ℚ) (m : String) :
    (zadd s k sc m).sets = s.sets := rfl

@[simp] theorem ttl_hset (s : Store) (k f : String) (v : RVal) :
    (hset s k f v).ttl = s.ttl := rfl

theorem ttl_hmset (s : Store) (k : String) (kvs : List (String × RVal)) :
    (hmset s k kvs).ttl = s.ttl := by
  induction kvs generalizing s with
  | nil => rfl
  | cons hd t ih => simp [hmset, ih]

@[simp] theorem ttl_sadd (s : Store) (k m : String) :
    (sadd s k m).ttl = s.ttl := rfl

@[simp] theorem ttl_zadd (s : Store) (k : String) (sc : ℚ) (m : String) :
    (zadd s k sc m).ttl = s.ttl := rfl

@[simp] theorem ttl_expire (s : Store) (k : String) (d : Int) (k' : String) :
    (expire s k d).ttl k' = if k' = k then some d else s.ttl k' := rfl

@[simp] theorem sets_sadd (s : Store) (k m k' : String) :
    (sadd s k m).sets k' =
      if k' = k then (if m ∈ s.sets k then s.sets k else s.sets k ++ [m])
      else s.sets k' := rfl

/-! ### Disjointness of the key namespaces -/

theorem append_ne_of_get (p q a b : String) (i : Nat)
    (h1 : i < p.data.length) (h2 : i < q.data.length)
    (h3 : p.data[i]? ≠ q.data[i]?) : p ++ a ≠ q ++ b := by
  intro h
  have hd : p.data ++ a.data = q.data ++ b.data := by
    have := congrArg String.data h
    simpa [String.data_append] using this
  have hi : (p.data ++ a.data)[i]? = (q.data ++ b.data)[i]? := by rw [hd]
  rw [List.getElem?_append_left h1, List.getElem?_append_left h2] at hi
  exact h3 hi

theorem append_ne_const (p a t : String) (i : Nat)
    (h1 : i < p.data.length) (h3 : p.data[i]? ≠ t.data[i]?) :
    p ++ a ≠ t := by
  intro h
  have hd : p.data ++ a.data = t.data := by
    have := congrArg String.data h
    simpa [String.data_append] using this
  have hi : (p.data ++ a.data)[i]? = t.data[i]? := by rw [hd]
  rw [List.getElem?_append_left h1] at hi
  exact h3 hi

theorem sessionKey_ne_userKey (a b : String) :
    sessionKey a ≠ userKey b :=
  append_ne_of_get "session:" "user:" _ _ 0 (by decide) (by decide)
    (by decide)

theorem requestKey_ne_userKey (a b : String) :
    requestKey a ≠ userKey b :=
  append_ne_of_get "request:" "user:" _ _ 0 (by decide) (by decide)
    (by decide)

theorem modelKey_ne_userKey (a b : String) :
    modelKey a ≠ userKey b :=
  append_ne_of_get "model:" "user:" _ _ 0 (by decide) (by decide)
    (by decide)

theorem requestKey_ne_sessionKey (a b : String) :
    requestKey a ≠ sessionKey b :=
  append_ne_of_get "request:" "session:" _ _ 0 (by decide) (by decide)
    (by decide)

theorem modelKey_ne_sessionKey (a b : String) :
    modelKey a ≠ sessionKey b :=
  append_ne_of_get "model:" "session:" _ _ 0 (by decide) (by decide)
    (by decide)

theorem requestKey_ne_activeUsers (a w : String) :
    requestKey a ≠ activeUsersKey w :=
  append_ne_of_get "request:" "users:active:" _ _ 0 (by decide)
    (by decide) (by decide)

theorem hourlyKey_ne_activeUsers (a w : String) (t : Int) :
    hourlyKey a t ≠ activeUsersKey w :=
  append_ne_of_get "user:" "users:active:" _ _ 4 (by decide) (by decide)
    (by decide)

theorem requestKey_ne_activeSessions (a : String) :
    requestKey a ≠ activeSessionsKey :=
  append_ne_const "request:" _ _ 0 (by decide) (by decide)

theorem hourlyKey_ne_activeSessions (a : String) (t : Int) :
    hourlyKey a t ≠ activeSessionsKey :=
  append_ne_const "user:" _ _ 0 (by decide) (by decide)

theorem activeUsersKey_eq_iff (w w' : String) :
    activeUsersKey w = activeUsersKey w' ↔ w = w' := by
  constructor
  · intro h
    have hd := congrArg String.data h
    simp only [activeUsersKey, String.data_append] at hd
    exact String.ext (List.append_cancel_left hd)
  · intro h; rw [h]

theorem activeUsersKey_ne_activeSessions (w : String) :
    activeUsersKey w ≠ activeSessionsKey :=
  append_ne_const "users:active:" _ _ 0 (by decide) (by decide)

theorem activeSessionsKey_ne_activeUsers (w : String) :
    activeSessionsKey ≠ activeUsersKey w :=
  (activeUsersKey_ne_activeSessions w).symm

theorem activeUsersKey_ne_requestKey (w a : String) :
    activeUsersKey w ≠ requestKey a :=
  append_ne_of_get "users:active:" "request:" _ _ 0 (by decide)
    (by decide) (by decide)

theorem activeUsersKey_ne_hourlyKey (w a : String) (t : Int) :
    activeUsersKey w ≠ hourlyKey a t :=
  append_ne_of_get "users:active:" "user:" _ _ 4 (by decide) (by decide)
    (by decide)

theorem activeSessionsKey_ne_requestKey (a : String) :
    activeSessionsKey ≠ requestKey a :=
  (requestKey_ne_activeSessions a).symm

theorem activeSessionsKey_ne_hourlyKey (a : String) (t : Int) :
    activeSessionsKey ≠ hourlyKey a t :=
  (hourlyKey_ne_activeSessions a t).symm

theorem mem_self_ite_append (l : List String) (a : String) :
    a ∈ (if a ∈ l then l else l ++ [a]) := by
  by_cases h : a ∈ l <;> simp [h]

theorem userKey_ne_requestKey (a b : String) : userKey a ≠ requestKey b :=
  (requestKey_ne_userKey b a).symm

theorem userKey_ne_sessionKey (a b : String) : userKey a ≠ sessionKey b :=
  (sessionKey_ne_userKey b a).symm

theorem userKey_ne_modelKey (a b : String) : userKey a ≠ modelKey b :=
  (modelKey_ne_userKey b a).symm

/-! ### Behaviour of one failure-free capture -/

/-- On a store with no failing commands, one capture succeeds and its
effect on the acting user's aggregate hash is exactly the read-add-write
of `updateUserMetrics`: totals grow by the record's token counts, the
request count by one, and the average is recomputed from the new
totals. -/
theorem capture_user_fields (m : TokenMetrics) (now : Int) (s : Store)
    (hfail : ∀ k, s.failing k = false) :
    (captureTokenMetrics m now s).1 = none ∧
    (captureTokenMetrics m now s).2.failing = s.failing ∧
    readInt (captureTokenMetrics m now s).2 (userKey m.UserID)
        "total_input_tokens" =
      readInt s (userKey m.UserID) "total_input_tokens" + m.InputTokens ∧
    readInt (captureTokenMetrics m now s).2 (userKey m.UserID)
        "total_output_tokens" =
      readInt s (userKey m.UserID) "total_output_tokens" + m.OutputTokens ∧
    readInt (captureTokenMetrics m now s).2 (userKey m.UserID)
        "total_requests" =
      readInt s (userKey m.UserID) "total_requests" + 1 ∧
    readRat (captureTokenMetrics m now s).2 (userKey m.UserID)
        "avg_tokens_per_request" =
      (((readInt s (userKey m.UserID) "total_input_tokens" + m.InputTokens) +
        (readInt s (userKey m.UserID) "total_output_tokens" + m.OutputTokens) :
          Int) : ℚ) /
        ((readInt s (userKey m.UserID) "total_requests" + 1 : Int) : ℚ) := by
  unfold captureTokenMetrics updateSessionMetrics updateUserMetrics
    updateTimeSeriesData updateModelUsage updateRealTimeActivity
  simp [hmsetE, zaddE, expireI, saddI, hmset, timeWindows, hfail,
    failing_hmset, readInt, readRat, asInt, asRat,
    userKey_ne_requestKey, userKey_ne_sessionKey, userKey_ne_modelKey]

/-- Invariant of a failure-free sequence of captures for one user: the
running totals accumulate the per-record counts, the request count
counts the records, and (once at least one capture ran) the stored
average is the ratio of the final totals. -/
theorem runCaptures_user_fields (uid : String)
    (ms : List (TokenMetrics × Int)) (s : Store)
    (hfail : ∀ k, s.failing k = false)
    (huid : ∀ p ∈ ms, p.1.UserID = uid) :
    (runCaptures ms s).failing = s.failing ∧
    readInt (runCaptures ms s) (userKey uid) "total_input_tokens" =
      readInt s (userKey uid) "total_input_tokens" +
        (ms.map (fun p => p.1.InputTokens)).sum ∧
    readInt (runCaptures ms s) (userKey uid) "total_output_tokens" =
      readInt s (userKey uid) "total_output_tokens" +
        (ms.map (fun p => p.1.OutputTokens)).sum ∧
    readInt (runCaptures ms s) (userKey uid) "total_requests" =
      readInt s (userKey uid) "total_requests" + ms.length ∧
    (ms ≠ [] →
      readRat (runCaptures ms s) (userKey uid) "avg_tokens_per_request" =
        ((readInt (runCaptures ms s) (userKey uid) "total_input_tokens" +
          readInt (runCaptures ms s) (userKey uid) "total_output_tokens" :
            Int) : ℚ) /
          ((readInt (runCaptures ms s) (userKey uid) "total_requests" :
            Int) : ℚ)) := by
  induction ms generalizing s with
  | nil => simp [runCaptures]
  | cons p rest ih =>
    obtain ⟨m, t⟩ := p
    have hm : m.UserID = uid := huid (m, t) (by simp)
    have hc := capture_user_fields m t s hfail
    set s' := (captureTokenMetrics m t s).2 with hs'
    have hrun : runCaptures ((m, t) :: rest) s = runCaptures rest s' := by
      simp [runCaptures]
    have hfail' : ∀ k, s'.failing k = false := by
      intro k; rw [hc.2.1]; exact hfail k
    have ih' := ih s' hfail' (fun q hq => huid q (List.mem_cons_of_mem _ hq))
    rw [hm] at hc
    refine ⟨?_, ?_, ?_, ?_, ?_⟩
    · rw [hrun, ih'.1, hc.2.1]
    · rw [hrun, ih'.2.1, hc.2.2.1]; simp; ring
    · rw [hrun, ih'.2.2.1, hc.2.2.2.1]; simp; ring
    · rw [hrun, ih'.2.2.2.1, hc.2.2.2.2.1]; simp; ring
    · intro _
      rcases eq_or_ne rest [] with hrest | hrest
      · subst hrest
        rw [hrun]
        have hone : runCaptures [] s' = s' := rfl
        rw [hone]
        rw [hc.2.2.2.2.2, hc.2.2.1, hc.2.2.2.1, hc.2.2.2.2.1]
      · rw [hrun]; exact ih'.2.2.2.2 hrest

/-- **C1.** For a user with no concurrent writers, after N sequential
calls of `CaptureTokenMetrics` for that user, starting from an absent
user aggregate on a store with no failing commands, the user hash
holds the summed input and output tokens, the request count N, and the
average tokens per request `(Σi + Σo) / N`. -/
theorem c1_user_aggregate (uid : String) (ms : List (TokenMetrics × Int))
    (s : Store) (hfail : ∀ k, s.failing k = false)
    (habsent : ∀ f, hget s (userKey uid) f = none)
    (huid : ∀ p ∈ ms, p.1.UserID = uid) :
    readInt (runCaptures ms s) (userKey uid) "total_input_tokens" =
      (ms.map (fun p => p.1.InputTokens)).sum ∧
    readInt (runCaptures ms s) (userKey uid) "total_output_tokens" =
      (ms.map (fun p => p.1.OutputTokens)).sum ∧
    readInt (runCaptures ms s) (userKey uid) "total_requests" =
      ms.length ∧
    (ms ≠ [] →
      readRat (runCaptures ms s) (userKey uid) "avg_tokens_per_request" =
        (((ms.map (fun p => p.1.InputTokens)).sum +
          (ms.map (fun p => p.1.OutputTokens)).sum : Int) : ℚ) /
          ((ms.length : Int) : ℚ)) := by
  have h := runCaptures_user_fields uid ms s hfail huid
  have h0 : ∀ f, readInt s (userKey uid) f = 0 := by
    intro f; simp [readInt, hfail, habsent, asInt]
  refine ⟨?_, ?_, ?_, ?_⟩
  · rw [h.2.1, h0]; ring
  · rw [h.2.2.1, h0]; ring
  · rw [h.2.2.2.1, h0]; ring
  · intro hne
    have := h.2.2.2.2 hne
    rw [h.2.1, h.2.2.1, h.2.2.2.1, h0, h0, h0] at this
    rw [this]; push_cast; ring_nf

/-! ### C2: session resolution -/

/-- **C2.** Session resolution. (a) If some registered active session
stores this user's id with a `last_activity` strictly within the past
30 minutes, `GetOrCreateSession` returns an existing registered
session id and refreshes that session's `last_activity` to now.
(b) If no registered session passes the scan test, it returns the
fresh id, whose hash stores zero token/request counters and the given
user id. (c) Two requests for the same user spaced more than 30
minutes apart (from an empty store) yield two distinct session ids. -/
theorem c2_getOrCreateSession (s : Store) (userID modelUsed : String)
    (now : Int) (freshID : String)
    (hA : s.failing activeSessionsKey = false) :
    ((∃ sid ∈ s.sets activeSessionsKey,
        s.failing (sessionKey sid) = false ∧
        hget s (sessionKey sid) "user_id" = some (.str userID) ∧
        ∃ t, hget s (sessionKey sid) "last_activity" = some (.time t) ∧
          0 ≤ now - t ∧ now - t < 30 * 60) →
      ∃ sid ∈ s.sets activeSessionsKey,
        (getOrCreateSession s userID modelUsed now freshID).1 = .ok sid ∧
        hget (getOrCreateSession s userID modelUsed now freshID).2
          (sessionKey sid) "last_activity" = some (.time now)) ∧
    ((∀ sid ∈ s.sets activeSessionsKey,
        sessionActiveFor s userID now sid = false) →
      s.failing (sessionKey freshID) = false →
      (getOrCreateSession s userID modelUsed now freshID).1 =
          .ok freshID ∧
        hget (getOrCreateSession s userID modelUsed now freshID).2
          (sessionKey freshID) "user_id" = some (.str userID) ∧
        hget (getOrCreateSession s userID modelUsed now freshID).2
          (sessionKey freshID) "total_input_tokens" = some (.int 0) ∧
        hget (getOrCreateSession s userID modelUsed now freshID).2
          (sessionKey freshID) "total_output_tokens" = some (.int 0) ∧
        hget (getOrCreateSession s userID modelUsed now freshID).2
          (sessionKey freshID) "request_count" = some (.int 0)) ∧
    (∀ t0 t1 f1 f2, ¬(t1 - t0 < 30 * 60) → f2 ≠ f1 →
      (getOrCreateSession emptyStore userID modelUsed t0 f1).1 =
          .ok f1 ∧
        (getOrCreateSession
          (getOrCreateSession emptyStore userID modelUsed t0 f1).2
          userID modelUsed t1 f2).1 = .ok f2 ∧
        (getOrCreateSession
          (getOrCreateSession emptyStore userID modelUsed t0 f1).2
          userID modelUsed t1 f2).1 ≠
          (getOrCreateSession emptyStore userID modelUsed t0 f1).1) := by
  refine ⟨?_, ?_, ?_⟩
  · rintro ⟨sid0, hmem0, hf0, hu0, t, ht0, hge, hlt⟩
    have hmatch0 : sessionActiveFor s userID now sid0 = true := by
      simp only [sessionActiveFor, hf0, Bool.false_eq_true, if_false,
        hu0, RVal.toStr, if_pos rfl, if_true, ht0, decide_eq_true_eq]
      exact hlt
    have hne : findSession s userID now (s.sets activeSessionsKey) ≠
        none := by
      intro hn
      rw [findSession, List.find?_eq_none] at hn
      exact hn sid0 hmem0 hmatch0
    obtain ⟨sid, hsid⟩ := Option.ne_none_iff_exists'.mp hne
    have hmem : sid ∈ s.sets activeSessionsKey :=
      List.mem_of_find?_eq_some hsid
    have hmatch : sessionActiveFor s userID now sid = true :=
      List.find?_some hsid
    have hfsid : s.failing (sessionKey sid) = false := by
      by_contra hcon
      simp only [sessionActiveFor] at hmatch
      rw [Bool.not_eq_false] at hcon
      simp [hcon] at hmatch
    refine ⟨sid, hmem, ?_, ?_⟩
    · simp [getOrCreateSession, hA, findSession] at hsid ⊢
      rw [hsid]
    · simp only [getOrCreateSession, hA, Bool.false_eq_true, if_false,
        findSession] at hsid ⊢
      rw [hsid]
      simp [hsetI, hfsid]
  · intro hnone hfresh
    have hfind : findSession s userID now (s.sets activeSessionsKey) =
        none := by
      rw [findSession, List.find?_eq_none]
      intro a ha
      simp [hnone a ha]
    simp [getOrCreateSession, hA, hfind, hmsetE, hfresh, failing_hmset,
      newSessionData, hmset, saddI, expireI]
  · intro t0 t1 f1 f2 hgap hne
    have h1 : (getOrCreateSession emptyStore userID modelUsed t0 f1) =
        (.ok f1,
          expireI (saddI (hmset emptyStore (sessionKey f1)
              (newSessionData userID modelUsed t0)) activeSessionsKey f1)
            (sessionKey f1) (30 * 24 * 3600)) := rfl
    set s1 := expireI (saddI (hmset emptyStore (sessionKey f1)
        (newSessionData userID modelUsed t0)) activeSessionsKey f1)
      (sessionKey f1) (30 * 24 * 3600) with hs1
    have hfail1 : ∀ k, s1.failing k = false := fun _ => rfl
    have hsets : s1.sets activeSessionsKey = [f1] := by
      simp [hs1, expireI, saddI, failing_hmset, sets_hmset, emptyStore]
    have hu : hget s1 (sessionKey f1) "user_id" =
        some (.str userID) := by
      simp [hs1, expireI, saddI, failing_hmset, emptyStore,
        newSessionData, hmset]
    have hl : hget s1 (sessionKey f1) "last_activity" =
        some (.time t0) := by
      simp [hs1, expireI, saddI, failing_hmset, emptyStore,
        newSessionData, hmset]
    have hsa : sessionActiveFor s1 userID t1 f1 = false := by
      simp only [sessionActiveFor, hfail1, Bool.false_eq_true, if_false,
        hu, RVal.toStr, if_pos rfl, if_true, hl, decide_eq_false_iff_not]
      exact hgap
    have hfind2 : findSession s1 userID t1 (s1.sets activeSessionsKey) =
        none := by
      rw [hsets]
      simp [findSession, hsa]
    have h2 : (getOrCreateSession s1 userID modelUsed t1 f2).1 =
        .ok f2 := by
      simp [getOrCreateSession, hfail1, hfind2, hmsetE]
    rw [h1]
    exact ⟨rfl, h2, by rw [h2]; simp [hne]⟩

/-- Witness for C2: reuse within 30 minutes, creation for another
user, and distinct ids for requests 2000 seconds apart. -/
theorem c2_getOrCreateSession_witness :
    (∃ sid ∈ c2DemoStore.sets activeSessionsKey,
      (getOrCreateSession c2DemoStore "u1" "llama" 1500 "sessB").1 =
          .ok sid ∧
        hget (getOrCreateSession c2DemoStore "u1" "llama" 1500
            "sessB").2 (sessionKey sid) "last_activity" =
          some (.time 1500)) ∧
    (getOrCreateSession c2DemoStore "u2" "llama" 1500 "sessB").1 =
        .ok "sessB" ∧
    (getOrCreateSession
        (getOrCreateSession emptyStore "u1" "llama" 1000 "sessA").2
        "u1" "llama" 3000 "sessB").1 = .ok "sessB" := by
  have h := c2_getOrCreateSession c2DemoStore "u1" "llama" 1500 "sessB"
    rfl
  have h2 := c2_getOrCreateSession c2DemoStore "u2" "llama" 1500 "sessB"
    rfl
  refine ⟨h.1 ⟨"sessA", by decide, rfl, by decide, 1000, by decide,
      by decide, by decide⟩,
    (h2.2.1 (by decide) rfl).1,
    (h.2.2 1000 3000 "sessA" "sessB" (by decide) (by decide)).2.1⟩

/-! ### C3: per-stage failure during capture -/

theorem failing_expireI (s : Store) (k : String) (d : Int) :
    (expireI s k d).failing = s.failing := by
  unfold expireI; split <;> rfl

theorem failing_saddI (s : Store) (k m : String) :
    (saddI s k m).failing = s.failing := by
  unfold saddI; split <;> rfl

theorem updateSessionMetrics_ok_failing {mm : TokenMetrics}
    {s s' : Store} (h : updateSessionMetrics mm s = .ok s') :
    s'.failing = s.failing := by
  simp only [updateSessionMetrics, hmsetE] at h
  split at h
  · cases h
  · cases h; rw [failing_hmset]

theorem updateUserMetrics_ok_failing {mm : TokenMetrics} {s s' : Store}
    (h : updateUserMetrics mm s = .ok s') : s'.failing = s.failing := by
  simp only [updateUserMetrics, hmsetE] at h
  split at h
  · cases h
  · cases h; rw [failing_hmset]

theorem updateTimeSeriesData_ok_failing {mm : TokenMetrics} {t : Int}
    {s s' : Store} (h : updateTimeSeriesData mm t s = .ok s') :
    s'.failing = s.failing := by
  simp only [updateTimeSeriesData, zaddE] at h
  split at h
  · cases h
  · rename_i s1 heq
    cases h
    split at heq
    · cases heq
    · cases heq
      rw [failing_expireI, failing_zadd]

theorem updateModelUsage_ok_failing {mm : TokenMetrics} {s s' : Store}
    (h : updateModelUsage mm s = .ok s') : s'.failing = s.failing := by
  simp only [updateModelUsage, hmsetE] at h
  split at h
  · cases h
  · cases h; rw [failing_hmset]

theorem updateSessionMetrics_total (mm : TokenMetrics) (s : Store)
    (h : s.failing (sessionKey mm.SessionID) = false) :
    ∃ x, updateSessionMetrics mm s = .ok x := by
  simp [updateSessionMetrics, hmsetE, h]

theorem updateUserMetrics_total (mm : TokenMetrics) (s : Store)
    (h : s.failing (userKey mm.UserID) = false) :
    ∃ x, updateUserMetrics mm s = .ok x := by
  simp [updateUserMetrics, hmsetE, h]

theorem updateTimeSeriesData_total (mm : TokenMetrics) (t : Int)
    (s : Store) (h : s.failing (hourlyKey mm.UserID t) = false) :
    ∃ x, updateTimeSeriesData mm t s = .ok x := by
  simp [updateTimeSeriesData, zaddE, h]

theorem updateModelUsage_total (mm : TokenMetrics) (s : Store)
    (h : s.failing (modelKey mm.ModelUsed) = false) :
    ∃ x, updateModelUsage mm s = .ok x := by
  simp [updateModelUsage, hmsetE, h]

theorem updateRealTimeActivity_total (u sid : String) (s : Store) :
    ∃ x, updateRealTimeActivity u sid s = .ok x := ⟨_, rfl⟩

/-- **C3.** Per-stage failure of `CaptureTokenMetrics`: each failing
sub-update aborts the capture with an error naming that stage, leaving
the final store exactly as the earlier stages wrote it (no rollback);
stage 6 discards its command errors and can never fail; when every
stage succeeds the capture returns `nil`. The stage-totality lemmas
above show the "earlier stages" hypotheses are satisfiable whenever
their keys are healthy. -/
theorem c3_capture_error_stages (m : TokenMetrics) (now : Int)
    (s : Store) :
    (s.failing (requestKey m.RequestID) = true →
      captureTokenMetrics m now s =
        (some ("failed to store request metrics: " ++ storeErr), s)) ∧
    (s.failing (requestKey m.RequestID) = false →
      s.failing (sessionKey m.SessionID) = true →
      captureTokenMetrics m now s =
        (some ("failed to update session metrics: " ++ storeErr),
          expireI (hmset s (requestKey m.RequestID)
              (requestData { m with Timestamp := now }))
            (requestKey m.RequestID) (7 * 24 * 3600))) ∧
    (s.failing (requestKey m.RequestID) = false →
      s.failing (userKey m.UserID) = true →
      ∀ s2, updateSessionMetrics { m with Timestamp := now }
          (expireI (hmset s (requestKey m.RequestID)
              (requestData { m with Timestamp := now }))
            (requestKey m.RequestID) (7 * 24 * 3600)) = .ok s2 →
        captureTokenMetrics m now s =
          (some ("failed to update user metrics: " ++ storeErr), s2)) ∧
    (s.failing (requestKey m.RequestID) = false →
      s.failing (hourlyKey m.UserID now) = true →
      ∀ s2 s3, updateSessionMetrics { m with Timestamp := now }
          (expireI (hmset s (requestKey m.RequestID)
              (requestData { m with Timestamp := now }))
            (requestKey m.RequestID) (7 * 24 * 3600)) = .ok s2 →
        updateUserMetrics { m with Timestamp := now } s2 = .ok s3 →
        captureTokenMetrics m now s =
          (some ("failed to update time-series data: " ++ storeErr),
            s3)) ∧
    (s.failing (requestKey m.RequestID) = false →
      s.failing (modelKey m.ModelUsed) = true →
      ∀ s2 s3 s4, updateSessionMetrics { m with Timestamp := now }
          (expireI (hmset s (requestKey m.RequestID)
              (requestData { m with Timestamp := now }))
            (requestKey m.RequestID) (7 * 24 * 3600)) = .ok s2 →
        updateUserMetrics { m with Timestamp := now } s2 = .ok s3 →
        updateTimeSeriesData { m with Timestamp := now } now s3 =
          .ok s4 →
        captureTokenMetrics m now s =
          (some ("failed to update model usage: " ++ storeErr), s4)) ∧
    (∀ (u sid : String) (s' : Store), ∃ s'',
      updateRealTimeActivity u sid s' = .ok s'') ∧
    (s.failing (requestKey m.RequestID) = false →
      s.failing (sessionKey m.SessionID) = false →
      s.failing (userKey m.UserID) = false →
      s.failing (hourlyKey m.UserID now) = false →
      s.failing (modelKey m.ModelUsed) = false →
      (captureTokenMetrics m now s).1 = none) := by
  refine ⟨?_, ?_, ?_, ?_, ?_, ?_, ?_⟩
  · intro h1
    simp [captureTokenMetrics, hmsetE, h1]
  · intro h1 h2
    simp [captureTokenMetrics, hmsetE, h1, updateSessionMetrics,
      expireI, failing_hmset, h2]
  · intro h1 h3 s2 he2
    simp only [captureTokenMetrics, hmsetE, h1, Bool.false_eq_true,
      if_false] at he2 ⊢
    rw [he2]
    have hf2 : s2.failing = s.failing := by
      rw [updateSessionMetrics_ok_failing he2, failing_expireI,
        failing_hmset]
    simp [updateUserMetrics, hmsetE, hf2, h3]
  · intro h1 h4 s2 s3 he2 he3
    simp only [captureTokenMetrics, hmsetE, h1, Bool.false_eq_true,
      if_false] at he2 ⊢
    rw [he2]; simp only []
    rw [he3]
    have hf3 : s3.failing = s.failing := by
      rw [updateUserMetrics_ok_failing he3,
        updateSessionMetrics_ok_failing he2, failing_expireI,
        failing_hmset]
    simp [updateTimeSeriesData, zaddE, hf3, h4]
  · intro h1 h5 s2 s3 s4 he2 he3 he4
    simp only [captureTokenMetrics, hmsetE, h1, Bool.false_eq_true,
      if_false] at he2 ⊢
    rw [he2]; simp only []
    rw [he3]; simp only []
    rw [he4]
    have hf4 : s4.failing = s.failing := by
      rw [updateTimeSeriesData_ok_failing he4,
        updateUserMetrics_ok_failing he3,
        updateSessionMetrics_ok_failing he2, failing_expireI,
        failing_hmset]
    simp [updateModelUsage, hmsetE, hf4, h5]
  · intro u sid s'
    exact ⟨_, rfl⟩
  · intro h1 h2 h3 h4 h5
    simp [captureTokenMetrics, hmsetE, h1, updateSessionMetrics,
      updateUserMetrics, updateTimeSeriesData, updateModelUsage,
      updateRealTimeActivity, zaddE, expireI, saddI, failing_hmset,
      h2, h3, h4, h5, timeWindows]

/-- Witness for C3: a store failing exactly on `u1`'s user hash key
makes the capture fail at stage 3 with the stage-naming message, while
on the all-healthy empty store the same capture returns `nil`. -/
theorem c3_capture_error_stages_witness :
    (captureTokenMetrics (demoMetric 10 5) 100
        { emptyStore with failing := fun k => k = userKey "u1" }).1 =
      some ("failed to update user metrics: " ++ storeErr) ∧
    (captureTokenMetrics (demoMetric 10 5) 100 emptyStore).1 = none := by
  constructor
  · obtain ⟨s2, he2⟩ := updateSessionMetrics_total
      { demoMetric 10 5 with Timestamp := 100 }
      (expireI (hmset
          { emptyStore with failing := fun k => k = userKey "u1" }
          (requestKey (demoMetric 10 5).RequestID)
          (requestData { demoMetric 10 5 with Timestamp := 100 }))
        (requestKey (demoMetric 10 5).RequestID) (7 * 24 * 3600))
      (by decide)
    have h := (c3_capture_error_stages (demoMetric 10 5) 100
      { emptyStore with failing := fun k => k = userKey "u1" }).2.2.1
      (by decide) (by decide) s2 he2
    rw [h]
  · exact (c3_capture_error_stages (demoMetric 10 5) 100
      emptyStore).2.2.2.2.2.2 rfl rfl rfl rfl rfl

/-! ### C5: serial multi-range queries -/

theorem lookupResp_nil (k : String) :
    lookupResp ([] : List (String × TimeSeriesResponse)) k = none := rfl

theorem lookupResp_cons (k0 : String) (v0 : TimeSeriesResponse)
    (t : List (String × TimeSeriesResponse)) (k : String) :
    lookupResp ((k0, v0) :: t) k =
      if k0 = k then some v0 else lookupResp t k := by
  by_cases h : k0 = k <;> simp [lookupResp, List.find?, h]

theorem lookupResp_mapInsert_self (m : List (String × TimeSeriesResponse))
    (k : String) (v : TimeSeriesResponse) :
    lookupResp (mapInsert m k v) k = some v := by
  induction m with
  | nil => simp [mapInsert, lookupResp_cons]
  | cons hd t ih =>
    obtain ⟨k0, v0⟩ := hd
    by_cases h : k0 = k <;> simp [mapInsert, h, lookupResp_cons, ih]

theorem lookupResp_mapInsert_other
    (m : List (String × TimeSeriesResponse)) (k k' : String)
    (v : TimeSeriesResponse) (h : k' ≠ k) :
    lookupResp (mapInsert m k v) k' = lookupResp m k' := by
  induction m with
  | nil => simp [mapInsert, lookupResp_cons, lookupResp_nil, Ne.symm h]
  | cons hd t ih =>
    obtain ⟨k0, v0⟩ := hd
    by_cases h0 : k0 = k
    · subst h0
      simp [mapInsert, lookupResp_cons, Ne.symm h]
    · by_cases h1 : k0 = k'
      · simp [mapInsert, h0, lookupResp_cons, h1, h]
      · simp [mapInsert, h0, lookupResp_cons, h1, ih]

theorem multiRangeLoop_total (s : Store) (qs : List TimeSeriesQuery)
    (hok : ∀ q ∈ qs, ∃ r, queryRange s q = .ok r) :
    ∀ acc, ∃ m, multiRangeLoop s acc qs = .ok m := by
  induction qs with
  | nil => intro acc; exact ⟨acc, rfl⟩
  | cons q rest ih =>
    intro acc
    obtain ⟨r, hr⟩ := hok q (by simp)
    obtain ⟨m, hm⟩ := ih (fun q' hq' => hok q' (by simp [hq']))
      (mapInsert acc q.Key r)
    exact ⟨m, by simp [multiRangeLoop, hr, hm]⟩

theorem multiRangeLoop_frame (s : Store) (qs : List TimeSeriesQuery)
    (k : String) (hk : ∀ q ∈ qs, q.Key ≠ k) :
    ∀ acc m, multiRangeLoop s acc qs = .ok m →
      lookupResp m k = lookupResp acc k := by
  induction qs with
  | nil =>
    intro acc m hm
    simp only [multiRangeLoop] at hm
    cases hm; rfl
  | cons q rest ih =>
    intro acc m hm
    simp only [multiRangeLoop] at hm
    split at hm
    · cases hm
    · rename_i r hr
      have := ih (fun q' hq' => hk q' (by simp [hq'])) _ _ hm
      rw [this,
        lookupResp_mapInsert_other _ _ _ _ (Ne.symm (hk q (by simp)))]

theorem multiRangeLoop_lookup (s : Store) (qs : List TimeSeriesQuery)
    (hnodup : (qs.map (fun q => q.Key)).Nodup) :
    ∀ acc m, multiRangeLoop s acc qs = .ok m →
      ∀ q ∈ qs, ∃ r, queryRange s q = .ok r ∧
        lookupResp m q.Key = some r := by
  induction qs with
  | nil => intro acc m _ q hq; cases hq
  | cons q0 rest ih =>
    intro acc m hm q hq
    simp only [multiRangeLoop] at hm
    split at hm
    · cases hm
    · rename_i r0 hr0
      rcases List.mem_cons.mp hq with hq | hq
      · subst hq
        refine ⟨r0, hr0, ?_⟩
        have hknotin : ∀ q' ∈ rest, q'.Key ≠ q.Key := by
          intro q' hq' hcon
          have hmem : q.Key ∈ rest.map (fun x => x.Key) := by
            rw [← hcon]
            exact List.mem_map_of_mem (fun x => x.Key) hq'
          exact (List.nodup_cons.mp hnodup).1 hmem
        rw [multiRangeLoop_frame s rest q.Key hknotin _ _ hm,
          lookupResp_mapInsert_self]
      · exact ih (List.nodup_cons.mp hnodup).2 _ _ hm q hq

theorem multiRangeLoop_err (s : Store) (qs₁ : List TimeSeriesQuery)
    (q : TimeSeriesQuery) (qs₂ : List TimeSeriesQuery) (e : String)
    (hok : ∀ q' ∈ qs₁, ∃ r, queryRange s q' = .ok r)
    (he : queryRange s q = .error e) :
    ∀ acc, multiRangeLoop s acc (qs₁ ++ q :: qs₂) =
      .error ("failed to query " ++ q.Key ++ ": " ++ e) := by
  induction qs₁ with
  | nil => intro acc; simp [multiRangeLoop, he]
  | cons q1 rest ih =>
    intro acc
    obtain ⟨r1, hr1⟩ := hok q1 (by simp)
    simp only [List.cons_append, multiRangeLoop, hr1]
    exact ih (fun q' hq' => hok q' (by simp [hq'])) _

/-- **C5.** `QueryMultiRange` runs its queries serially: if every
query's `QueryRange` succeeds it returns a map sending each key to its
response, and at the first failing query it aborts with an error naming
that query's key — the error return carries no partial map (the Go
function returns a `nil` map with the error). -/
theorem c5_queryMultiRange (s : Store) (qs : List TimeSeriesQuery) :
    ((∀ q ∈ qs, ∃ r, queryRange s q = .ok r) →
      ∃ m, queryMultiRange s qs = .ok m ∧
        ((qs.map (fun q => q.Key)).Nodup →
          ∀ q ∈ qs, ∃ r, queryRange s q = .ok r ∧
            lookupResp m q.Key = some r)) ∧
    (∀ qs₁ q qs₂ e, qs = qs₁ ++ q :: qs₂ →
      (∀ q' ∈ qs₁, ∃ r, queryRange s q' = .ok r) →
      queryRange s q = .error e →
      queryMultiRange s qs =
        .error ("failed to query " ++ q.Key ++ ": " ++ e)) := by
  constructor
  · intro hok
    obtain ⟨m, hm⟩ := multiRangeLoop_total s qs hok []
    exact ⟨m, hm, fun hnodup => multiRangeLoop_lookup s qs hnodup _ _ hm⟩
  · intro qs₁ q qs₂ e hsplit hok he
    rw [hsplit]
    exact multiRangeLoop_err s qs₁ q qs₂ e hok he []

/-- Witness for C5: a two-query batch over `tsDemoStore` succeeds with
both keys mapped; prepending a query for an absent key aborts the
batch naming that key. -/
theorem c5_queryMultiRange_witness :
    (∃ m, queryMultiRange tsDemoStore
        [tsQuery "metrics:tokens:input_rate",
         tsQuery "metrics:tokens:output_rate"] = .ok m ∧
      lookupResp m "metrics:tokens:input_rate" =
        some ⟨"metrics:tokens:input_rate", [⟨100, 3⟩, ⟨200, 4⟩], []⟩) ∧
    queryMultiRange tsDemoStore
        [tsQuery "metrics:tokens:input_rate", tsQuery "metrics:absent",
         tsQuery "metrics:tokens:output_rate"] =
      .error ("failed to query " ++ "metrics:absent" ++ ": " ++
        "TSDB: the key does not exist") := by
  constructor
  · have h := (c5_queryMultiRange tsDemoStore
      [tsQuery "metrics:tokens:input_rate",
       tsQuery "metrics:tokens:output_rate"]).1
      (by intro q hq
          rcases List.mem_cons.mp hq with h | h
          · exact ⟨_, by rw [h]; rfl⟩
          · rcases List.mem_singleton.mp h with rfl
            exact ⟨_, rfl⟩)
    obtain ⟨m, hm, hlook⟩ := h
    obtain ⟨r, hr, hlr⟩ := hlook (by decide)
      (tsQuery "metrics:tokens:input_rate") (by simp)
    refine ⟨m, hm, ?_⟩
    simp only [tsQuery] at hlr
    rw [hlr]
    have : r = ⟨"metrics:tokens:input_rate", [⟨100, 3⟩, ⟨200, 4⟩], []⟩ := by
      have hr' : queryRange tsDemoStore
          (tsQuery "metrics:tokens:input_rate") =
          .ok ⟨"metrics:tokens:input_rate", [⟨100, 3⟩, ⟨200, 4⟩], []⟩ := by
        rfl
      rw [hr'] at hr
      cases hr; rfl
    rw [this]
  · exact (c5_queryMultiRange tsDemoStore _).2
      [tsQuery "metrics:tokens:input_rate"] (tsQuery "metrics:absent")
      [tsQuery "metrics:tokens:output_rate"] "TSDB: the key does not exist"
      rfl
      (by intro q hq
          rcases List.mem_singleton.mp hq with rfl
          exact ⟨_, rfl⟩)
      rfl

/-! ### C6: AddDataPoint and GetLatestValue -/

theorem insertSample_append (x : Int × ℚ) (l : List (Int × ℚ))
    (h : ∀ p ∈ l, p.1 < x.1) : insertSample x l = l ++ [x] := by
  induction l with
  | nil => rfl
  | cons y ys ih =>
    have hy : y.1 < x.1 := h y (by simp)
    simp only [insertSample, if_neg (by omega : ¬x.1 < y.1),
      List.cons_append, List.cons.injEq, true_and]
    exact ih fun p hp => h p (by simp [hp])

theorem mem_insertSample (x : Int × ℚ) (l : List (Int × ℚ)) :
    x ∈ insertSample x l := by
  induction l with
  | nil => simp [insertSample]
  | cons y ys ih =>
    by_cases h : x.1 < y.1 <;> simp [insertSample, h, ih]

/-- **C6.** `AddDataPoint(key, 0, v)` substitutes the current time for
the zero timestamp and appends exactly one sample `(now, v)`, after
which `GetLatestValue(key)` returns `v` stamped with that call time;
with a nonzero timestamp the sample is appended at that timestamp
unchanged. -/
theorem c6_addDataPoint (s : Store) (now : Int) (key : String) (v : ℚ)
    (hfail : s.failing key = false)
    (hpast : ∀ p ∈ seriesSamples s key, p.1 < now) :
    (addDataPoint s now key 0 v).1 = none ∧
    seriesSamples (addDataPoint s now key 0 v).2 key =
      seriesSamples s key ++ [(now, v)] ∧
    getLatestValue (addDataPoint s now key 0 v).2 key =
      .ok ⟨now, v⟩ ∧
    (∀ t, t ≠ 0 → (∀ p ∈ seriesSamples s key, p.1 ≠ t) →
      (addDataPoint s now key t v).1 = none ∧
      (t, v) ∈ seriesSamples (addDataPoint s now key t v).2 key) := by
  have hmain : (addDataPoint s now key 0 v).1 = none ∧
      seriesSamples (addDataPoint s now key 0 v).2 key =
        seriesSamples s key ++ [(now, v)] := by
    cases hts : s.tseries key with
    | none =>
      simp [addDataPoint, hfail, hts, seriesSamples]
    | some ser =>
      have hnodup : ser.samples.any (fun p => p.1 = now) = false := by
        simp only [List.any_eq_false, decide_eq_true_eq]
        intro p hp
        have := hpast p (by simp [seriesSamples, hts, hp])
        omega
      have hins : insertSample (now, v) ser.samples =
          ser.samples ++ [(now, v)] :=
        insertSample_append _ _
          (fun p hp => hpast p (by simp [seriesSamples, hts, hp]))
      simp [addDataPoint, hfail, hts, hnodup, seriesSamples, hins]
  refine ⟨hmain.1, hmain.2, ?_, ?_⟩
  · have hfail' : (addDataPoint s now key 0 v).2.failing key = false := by
      cases hts : s.tseries key with
      | none => simp [addDataPoint, hfail, hts]
      | some ser =>
        have hnodup : ser.samples.any (fun p => p.1 = now) = false := by
          simp only [List.any_eq_false, decide_eq_true_eq]
          intro p hp
          have := hpast p (by simp [seriesSamples, hts, hp])
          omega
        simp [addDataPoint, hfail, hts, hnodup]
    have hsome : ∃ ser', (addDataPoint s now key 0 v).2.tseries key =
        some ser' ∧ ser'.samples = seriesSamples s key ++ [(now, v)] := by
      have h2 := hmain.2
      simp only [seriesSamples] at h2
      cases hts' : (addDataPoint s now key 0 v).2.tseries key with
      | none =>
        rw [hts'] at h2
        exact absurd h2.symm (by simp)
      | some ser' =>
        rw [hts'] at h2
        exact ⟨ser', rfl, h2⟩
    obtain ⟨ser', hts', hsamp⟩ := hsome
    simp [getLatestValue, hfail', hts', hsamp, List.getLast?_concat]
  · intro t ht hnot
    cases hts : s.tseries key with
    | none =>
      simp [addDataPoint, ht, hfail, hts, seriesSamples]
    | some ser =>
      have hnodup : ser.samples.any (fun p => p.1 = t) = false := by
        simp only [List.any_eq_false, decide_eq_true_eq]
        intro p hp
        exact hnot p (by simp [seriesSamples, hts, hp])
      refine ⟨by simp [addDataPoint, ht, hfail, hts, hnodup], ?_⟩
      simp [addDataPoint, ht, hfail, hts, hnodup, seriesSamples]
      exact mem_insertSample (t, v) ser.samples

/-- Witness for C6 over `tsDemoStore` at time 300. -/
theorem c6_addDataPoint_witness :
    (addDataPoint tsDemoStore 300 "metrics:tokens:input_rate" 0 5).1 =
        none ∧
    seriesSamples
        (addDataPoint tsDemoStore 300 "metrics:tokens:input_rate" 0
          5).2 "metrics:tokens:input_rate" =
      [(100, 3), (200, 4), (300, 5)] ∧
    getLatestValue
        (addDataPoint tsDemoStore 300 "metrics:tokens:input_rate" 0
          5).2 "metrics:tokens:input_rate" = .ok ⟨300, 5⟩ ∧
    (250, 5) ∈ seriesSamples
        (addDataPoint tsDemoStore 300 "metrics:tokens:input_rate" 250
          5).2 "metrics:tokens:input_rate" := by
  have h := c6_addDataPoint tsDemoStore 300 "metrics:tokens:input_rate"
    5 rfl (by decide)
  refine ⟨h.1, ?_, h.2.2.1, (h.2.2.2 250 (by decide) (by decide)).2⟩
  rw [h.2.1]
  rfl

/-! ### C7: idempotent series creation -/

theorem tsCreate_preserves (s : Store) (key : String) (r : Int)
    (labels : List (String × String)) (k : String)
    (h : (s.tseries k).isSome) :
    (tsCreate s key r labels).2.tseries k = s.tseries k := by
  unfold tsCreate
  split
  · rfl
  · split
    · rfl
    · rename_i hts
      simp only
      by_cases hk : k = key
      · subst hk
        rw [hts] at h
        cases h
      · simp [hk]

theorem initFold_preserves
    (l : List (String × Int × List (String × String))) :
    ∀ (s : Store) (acc : List String) (k : String),
      (s.tseries k).isSome →
      (l.foldl initStep (s, acc)).1.tseries k = s.tseries k := by
  induction l with
  | nil => intro s acc k _; rfl
  | cons e t ih =>
    intro s acc k h
    rcases hc : tsCreate s e.1 e.2.1 e.2.2 with ⟨err, s₂⟩
    have hpres : s₂.tseries k = s.tseries k := by
      have := tsCreate_preserves s e.1 e.2.1 e.2.2 k h
      rw [hc] at this
      exact this
    have hsome2 : (s₂.tseries k).isSome := by rw [hpres]; exact h
    show (t.foldl initStep (initStep (s, acc) e)).1.tseries k =
      s.tseries k
    cases err with
    | none =>
      rw [show initStep (s, acc) e = (s₂, acc) by simp [initStep, hc]]
      rw [ih s₂ acc k hsome2, hpres]
    | some er =>
      by_cases her : er = tsdbExistsErr
      · rw [show initStep (s, acc) e = (s₂, acc) by
          simp [initStep, hc, her]]
        rw [ih s₂ acc k hsome2, hpres]
      · rw [show initStep (s, acc) e = (s₂, acc ++
            ["Warning: Failed to create time-series " ++ e.1 ++
              ": " ++ er]) by simp [initStep, hc, her]]
        rw [ih s₂ _ k hsome2, hpres]

theorem initFold_noop (l : List (String × Int × List (String × String))) :
    ∀ (s : Store) (acc : List String),
      (∀ e ∈ l, (s.tseries e.1).isSome ∧ s.failing e.1 = false) →
      l.foldl initStep (s, acc) = (s, acc) := by
  induction l with
  | nil => intro s acc _; rfl
  | cons e t ih =>
    intro s acc hex
    obtain ⟨hsome, hfail⟩ := hex e (by simp)
    obtain ⟨ser, hser⟩ := Option.isSome_iff_exists.mp hsome
    have hcreate : tsCreate s e.1 e.2.1 e.2.2 = (some tsdbExistsErr, s) := by
      simp [tsCreate, hfail, hser]
    show t.foldl initStep (initStep (s, acc) e) = (s, acc)
    rw [show initStep (s, acc) e = (s, acc) by
      simp [initStep, hcreate]]
    exact ih s acc fun e' he' => hex e' (by simp [he'])

/-- **C7.** Startup series creation is idempotent: an existing series
is never reset or deleted (its retention, labels and samples survive
any run of `initializeTimeSeries`), and when every catalog key already
exists on a healthy store the run changes nothing and logs no warning
— the "already exists" error is swallowed. -/
theorem c7_initializeTimeSeries (s : Store) :
    (∀ k, (s.tseries k).isSome →
      (initializeTimeSeries s).1.tseries k = s.tseries k) ∧
    ((∀ e ∈ seriesCatalog,
        (s.tseries e.1).isSome ∧ s.failing e.1 = false) →
      initializeTimeSeries s = (s, [])) := by
  constructor
  · intro k h
    exact initFold_preserves seriesCatalog s [] k h
  · intro hex
    exact initFold_noop seriesCatalog s [] hex

/-- Witness for C7: rerunning initialization over a store where every
catalog series exists changes nothing and logs nothing; the populated
series of `tsDemoStore` survives initialization untouched. -/
theorem c7_initializeTimeSeries_witness :
    initializeTimeSeries c7DemoStore = (c7DemoStore, []) ∧
    (initializeTimeSeries tsDemoStore).1.tseries
        "metrics:tokens:input_rate" =
      tsDemoStore.tseries "metrics:tokens:input_rate" := by
  constructor
  · exact (c7_initializeTimeSeries c7DemoStore).2 (by decide)
  · exact (c7_initializeTimeSeries tsDemoStore).1
      "metrics:tokens:input_rate" (by decide)

/-! ### C8 and C10: the analytics snapshot -/

theorem getTopUsersC_state (limit : Nat) (s : Store) :
    (getTopUsersC limit s).2 = s := by
  unfold getTopUsersC keysC
  by_cases h : s.keysFail <;> simp [h]

theorem getModelUsageC_state (s : Store) :
    (getModelUsageC s).2 = s := by
  unfold getModelUsageC keysC
  by_cases h : s.keysFail <;> simp [h]

theorem topUsersLoop_map (s : Store)
    (hfail : ∀ k, s.failing k = false) (l : List String) :
    topUsersLoop s l =
      l.map (fun k => mkUserStats k (fun f => hget s k f)) := by
  induction l with
  | nil => rfl
  | cons k t ih =>
    simp [topUsersLoop, hgetAllC, hfail, ih]

/-- **C8.** `GetAnalytics` never mutates the store, always reports the
placeholder token rates `{input_per_minute: 0, output_per_minute: 0}`,
and (on a healthy store) fills `top_users` with the first at most 10
user aggregates in `KEYS user:*:tokens` encounter order — no ranking
or sorting is applied. -/
theorem c8_getAnalytics (s : Store) (now : Int) :
    (getAnalyticsC now s).2 = s ∧
    (∀ r, (getAnalyticsC now s).1 = .ok r →
      r.TokenRates =
        [("input_per_minute", (0 : ℚ)), ("output_per_minute", 0)] ∧
      (s.keysFail = false → (∀ k, s.failing k = false) →
        r.TopUsers =
          (((s.hashes.map (fun p => p.1)).filter
              (globMatch "user:" ":tokens")).map
            (fun k => mkUserStats k (fun f => hget s k f))).take 10)) := by
  constructor
  · show (getModelUsageC (getTopUsersC 10 s).2).2 = s
    rw [getModelUsageC_state, getTopUsersC_state]
  · intro r h
    simp only [getAnalyticsC] at h
    cases h
    refine ⟨rfl, ?_⟩
    intro hkeys hfail
    show (match (getTopUsersC 10 s).1 with
      | .ok l => l
      | .error _ => []) = _
    simp [getTopUsersC, keysC, hkeys, topUsersLoop_map s hfail]

/-- Witness for C8 on the store produced by Scenario A's captures:
the snapshot leaves the store unchanged, reports the placeholder
rates, and lists exactly the one scanned user aggregate (`u1`, totals
60/15, 3 requests). -/
theorem c8_getAnalytics_witness :
    (getAnalyticsC 500 (runCaptures c1DemoMs emptyStore)).2 =
      runCaptures c1DemoMs emptyStore ∧
    ∀ r, (getAnalyticsC 500 (runCaptures c1DemoMs emptyStore)).1 =
        .ok r →
      r.TokenRates =
        [("input_per_minute", (0 : ℚ)), ("output_per_minute", 0)] ∧
      r.TopUsers.map (fun u =>
          (u.UserID, u.TotalInputTokens, u.TotalOutputTokens,
            u.TotalSessions)) =
        [("u1", 60, 15, 3)] := by
  have h := c8_getAnalytics (runCaptures c1DemoMs emptyStore) 500
  refine ⟨h.1, ?_⟩
  intro r hr
  have h2 := h.2 r hr
  refine ⟨h2.1, ?_⟩
  rw [h2.2 rfl (fun k => rfl)]
  have hkeys : (((runCaptures c1DemoMs emptyStore).hashes.map
      (fun p => p.1)).filter (globMatch "user:" ":tokens")) =
      ["user:u1:tokens"] := by decide
  rw [hkeys]
  decide

/-- **C10.** `GetAnalytics` always returns a response and a `nil`
error — every sub-read's failure is discarded — so the 500 branch of
the `/analytics` handler is unreachable: the handler always answers
200. -/
theorem c10_analytics_total (s : Store) (now : Int) :
    (∃ r, (getAnalyticsC now s).1 = .ok r) ∧
    analyticsStatus s now = 200 :=
  ⟨⟨_, rfl⟩, rfl⟩

/-! ### C9: activity windows -/

set_option maxHeartbeats 2000000 in
/-- **C9.** Every failure-free capture returns `nil` and re-adds the
acting user's id to each of the four activity-window sets with the
set's TTL reset to exactly its window duration, and adds the session
id to the active-session set; in particular after the capture every
activity-window set's TTL equals its window duration. -/
theorem c9_activity_windows (m : TokenMetrics) (now : Int) (s : Store)
    (hfail : ∀ k, s.failing k = false) :
    (captureTokenMetrics m now s).1 = none ∧
    (∀ wd ∈ timeWindows,
      m.UserID ∈
        (captureTokenMetrics m now s).2.sets (activeUsersKey wd.1) ∧
      (captureTokenMetrics m now s).2.ttl (activeUsersKey wd.1) =
        some wd.2) ∧
    m.SessionID ∈
      (captureTokenMetrics m now s).2.sets activeSessionsKey := by
  refine ⟨(capture_user_fields m now s hfail).1, ?_, ?_⟩ <;>
    simp only [captureTokenMetrics, updateSessionMetrics,
      updateUserMetrics, updateTimeSeriesData, updateModelUsage,
      updateRealTimeActivity, hmsetE, zaddE, expireI, saddI, hfail,
      failing_hmset, failing_sadd, failing_expire, failing_zadd,
      Bool.false_eq_true, if_false, timeWindows, List.foldl] <;>
    simp [sets_hmset, ttl_hmset, sets_sadd, ttl_expire, sets_expire,
      ttl_sadd, ttl_zadd, sets_zadd, activeUsersKey_eq_iff,
      activeUsersKey_ne_activeSessions, activeSessionsKey_ne_activeUsers,
      activeUsersKey_ne_requestKey, activeUsersKey_ne_hourlyKey,
      activeSessionsKey_ne_requestKey, activeSessionsKey_ne_hourlyKey,
      mem_self_ite_append]

/-- Witness for C9 on the empty store (`u1`'s capture populates all
four windows with TTL = window length and registers the session). -/
theorem c9_activity_windows_witness :
    (captureTokenMetrics (demoMetric 10 5) 100 emptyStore).1 = none ∧
    ("u1" ∈ (captureTokenMetrics (demoMetric 10 5) 100
        emptyStore).2.sets (activeUsersKey "5m") ∧
      (captureTokenMetrics (demoMetric 10 5) 100 emptyStore).2.ttl
        (activeUsersKey "5m") = some 300) ∧
    "s1" ∈ (captureTokenMetrics (demoMetric 10 5) 100
        emptyStore).2.sets activeSessionsKey := by
  have h := c9_activity_windows (demoMetric 10 5) 100 emptyStore
    (fun _ => rfl)
  exact ⟨h.1, h.2.1 ("5m", 300) (by decide), h.2.2⟩

/-! ### C4: monotonicity of the aggregate counters -/

/-- The effect of one successful `updateUserMetrics` on the three user
counters. -/
theorem updateUserMetrics_ok_reads {mm : TokenMetrics} {s s' : Store}
    (h : updateUserMetrics mm s = .ok s') :
    readInt s' (userKey mm.UserID) "total_input_tokens" =
      readInt s (userKey mm.UserID) "total_input_tokens" +
        mm.InputTokens ∧
    readInt s' (userKey mm.UserID) "total_output_tokens" =
      readInt s (userKey mm.UserID) "total_output_tokens" +
        mm.OutputTokens ∧
    readInt s' (userKey mm.UserID) "total_requests" =
      readInt s (userKey mm.UserID) "total_requests" + 1 := by
  simp only [updateUserMetrics, hmsetE] at h
  split at h
  · cases h
  · rename_i hcond
    cases h
    rw [Bool.not_eq_true] at hcond
    simp [readInt, failing_hmset, hcond, hmset, asInt]

/-- The effect of one successful `updateModelUsage` on the three model
counters. -/
theorem updateModelUsage_ok_reads {mm : TokenMetrics} {s s' : Store}
    (h : updateModelUsage mm s = .ok s') :
    readInt s' (modelKey mm.ModelUsed) "total_input_tokens" =
      readInt s (modelKey mm.ModelUsed) "total_input_tokens" +
        mm.InputTokens ∧
    readInt s' (modelKey mm.ModelUsed) "total_output_tokens" =
      readInt s (modelKey mm.ModelUsed) "total_output_tokens" +
        mm.OutputTokens ∧
    readInt s' (modelKey mm.ModelUsed) "total_requests" =
      readInt s (modelKey mm.ModelUsed) "total_requests" + 1 := by
  simp only [updateModelUsage, hmsetE] at h
  split at h
  · cases h
  · rename_i hcond
    cases h
    rw [Bool.not_eq_true] at hcond
    simp [readInt, failing_hmset, hcond, hmset, asInt]

/-- **C4 (amended).** The `total_requests` counter written by
`updateUserMetrics` / `updateModelUsage` is always at least the value
read; the token counters are non-decreasing provided the capture's
token counts are non-negative (the code adds the raw `int` counts, so
a negative count decreases the counter — see the counterexample). -/
theorem c4_counter_monotone (m : TokenMetrics) (s s' : Store) :
    (updateUserMetrics m s = .ok s' →
      (0 ≤ m.InputTokens →
        readInt s (userKey m.UserID) "total_input_tokens" ≤
          readInt s' (userKey m.UserID) "total_input_tokens") ∧
      (0 ≤ m.OutputTokens →
        readInt s (userKey m.UserID) "total_output_tokens" ≤
          readInt s' (userKey m.UserID) "total_output_tokens") ∧
      readInt s (userKey m.UserID) "total_requests" ≤
        readInt s' (userKey m.UserID) "total_requests") ∧
    (updateModelUsage m s = .ok s' →
      (0 ≤ m.InputTokens →
        readInt s (modelKey m.ModelUsed) "total_input_tokens" ≤
          readInt s' (modelKey m.ModelUsed) "total_input_tokens") ∧
      (0 ≤ m.OutputTokens →
        readInt s (modelKey m.ModelUsed) "total_output_tokens" ≤
          readInt s' (modelKey m.ModelUsed) "total_output_tokens") ∧
      readInt s (modelKey m.ModelUsed) "total_requests" ≤
        readInt s' (modelKey m.ModelUsed) "total_requests") := by
  constructor
  · intro h
    obtain ⟨h1, h2, h3⟩ := updateUserMetrics_ok_reads h
    exact ⟨fun hi => by omega, fun ho => by omega, by omega⟩
  · intro h
    obtain ⟨h1, h2, h3⟩ := updateModelUsage_ok_reads h
    exact ⟨fun hi => by omega, fun ho => by omega, by omega⟩

/-- Witness for the amended C4 at a concrete non-negative record. -/
theorem c4_counter_monotone_witness :
    (readInt emptyStore (userKey "u1") "total_input_tokens" ≤
        readInt c4UserStore (userKey "u1") "total_input_tokens" ∧
      readInt emptyStore (userKey "u1") "total_requests" ≤
        readInt c4UserStore (userKey "u1") "total_requests") ∧
    readInt emptyStore (modelKey "llama") "total_requests" ≤
      readInt c4ModelStore (modelKey "llama") "total_requests" := by
  have hu := (c4_counter_monotone (demoMetric 10 5) emptyStore
    c4UserStore).1 rfl
  have hm := (c4_counter_monotone (demoMetric 10 5) emptyStore
    c4ModelStore).2 rfl
  exact ⟨⟨hu.1 (by decide), hu.2.2⟩, hm.2.2⟩

/-- **C4 counterexample.** A capture record with a negative input-token
count makes `updateUserMetrics` write a user `total_input_tokens`
strictly below the value it read, refuting the unconditional
monotonicity claim. -/
theorem c4_counterexample :
    updateUserMetrics (demoMetric (-1) 0) emptyStore = .ok c4NegStore ∧
    readInt c4NegStore (userKey "u1") "total_input_tokens" <
      readInt emptyStore (userKey "u1") "total_input_tokens" :=
  ⟨rfl, by decide⟩

/-- Witness for C1 at Scenario A. -/
theorem c1_user_aggregate_witness :
    readInt (runCaptures c1DemoMs emptyStore) (userKey "u1")
        "total_input_tokens" = 60 ∧
    readInt (runCaptures c1DemoMs emptyStore) (userKey "u1")
        "total_output_tokens" = 15 ∧
    readInt (runCaptures c1DemoMs emptyStore) (userKey "u1")
        "total_requests" = 3 ∧
    readRat (runCaptures c1DemoMs emptyStore) (userKey "u1")
        "avg_tokens_per_request" = 25 := by
  have h := c1_user_aggregate "u1" c1DemoMs emptyStore (fun _ => rfl)
    (fun _ => rfl) (by decide)
  refine ⟨?_, ?_, ?_, ?_⟩
  · rw [h.1]; rfl
  · rw [h.2.1]; rfl
  · rw [h.2.2.1]; rfl
  · rw [h.2.2.2 (by simp [c1DemoMs])]; norm_num [c1DemoMs, demoMetric]

end AIWatch
